import Mathlib

/-!
A shallow embedding of the Chafa canvas-config component declared in
src/.local/include/chafa/chafa-canvas-config.h.  The header only declares
the public surface; the corresponding implementation file is not in the
tree, so the behaviour of every operation is modelled from the
specification, as noted in each definition's doc comment.  Modelling
conventions: gfloat is ℚ, gint is Int, guint32 is Nat reduced modulo 2^32,
gboolean is Bool, and a ChafaSymbolMap pointer is a Nat identifier of a
separately owned catalog.  The C API mutates records through pointers;
this is embedded as a store mapping Nat handles to records, with every
operation an explicit state transformer on the store.
-/

/-- Modelled from the spec: the `ChafaCanvasMode` member the spec calls
truecolor (the enum's definition is not under src/); codes follow the
spec's member list none/2-color/16-color/256-color/truecolor. -/
def CHAFA_CANVAS_MODE_TRUECOLOR : Int := 0

/-- Modelled from the spec: the `ChafaColorSpace` member RGB (the enum's
definition is not under src/). -/
def CHAFA_COLOR_SPACE_RGB : Int := 0

/-- Modelled from the spec: the `ChafaPassthrough` member none (the enum's
definition is not under src/). -/
def CHAFA_PASSTHROUGH_NONE : Int := 0

/-- Modelled from the spec: the `ChafaPixelMode` member for character
symbols (the enum's definition is not under src/). -/
def CHAFA_PIXEL_MODE_SYMBOLS : Int := 0

/-- Modelled from the spec: the closed set of `ChafaCanvasMode` codes
(none / 2-color / 16-color / 256-color / truecolor); the enum's
definition is not under src/. -/
def validCanvasMode (mode : Int) : Prop := 0 ≤ mode ∧ mode < 5

/-- Modelled from the spec: the closed set of `ChafaColorExtractor` codes
(average / median); the enum's definition is not under src/. -/
def validColorExtractor (x : Int) : Prop := 0 ≤ x ∧ x < 2

/-- Modelled from the spec: the closed set of `ChafaColorSpace` codes
(RGB / CIE-Lab); the enum's definition is not under src/. -/
def validColorSpace (x : Int) : Prop := 0 ≤ x ∧ x < 2

/-- Modelled from the spec: the closed set of `ChafaDitherMode` codes; the
enum's definition is not under src/. -/
def validDitherMode (x : Int) : Prop := 0 ≤ x ∧ x < 3

/-- Modelled from the spec: the closed set of `ChafaPixelMode` codes
(symbols / sixels / Kitty / iTerm2); the enum's definition is not under
src/. -/
def validPixelMode (x : Int) : Prop := 0 ≤ x ∧ x < 4

/-- Modelled from the spec: the closed set of `ChafaPassthrough` codes
(none / screen / tmux); the enum's definition is not under src/. -/
def validPassthrough (x : Int) : Prop := 0 ≤ x ∧ x < 3

/-- Modelled from the spec: the supported discrete dither grain dimensions
(a configuration constant the spec leaves open; powers of two up to 8 are
used here); the implementation is not under src/. -/
def validGrainDim (g : Int) : Prop := g = 1 ∨ g = 2 ∨ g = 4 ∨ g = 8

instance decValidCanvasMode (m : Int) : Decidable (validCanvasMode m) :=
  inferInstanceAs (Decidable (0 ≤ m ∧ m < 5))

instance decValidColorExtractor (m : Int) : Decidable (validColorExtractor m) :=
  inferInstanceAs (Decidable (0 ≤ m ∧ m < 2))

instance decValidColorSpace (m : Int) : Decidable (validColorSpace m) :=
  inferInstanceAs (Decidable (0 ≤ m ∧ m < 2))

instance decValidDitherMode (m : Int) : Decidable (validDitherMode m) :=
  inferInstanceAs (Decidable (0 ≤ m ∧ m < 3))

instance decValidPixelMode (m : Int) : Decidable (validPixelMode m) :=
  inferInstanceAs (Decidable (0 ≤ m ∧ m < 4))

instance decValidPassthrough (m : Int) : Decidable (validPassthrough m) :=
  inferInstanceAs (Decidable (0 ≤ m ∧ m < 3))

instance decValidGrainDim (g : Int) : Decidable (validGrainDim g) :=
  inferInstanceAs (Decidable (g = 1 ∨ g = 2 ∨ g = 4 ∨ g = 8))

/-- GLib's CLAMP macro on the ℚ model of gfloat:
CLAMP(x,low,high) is high when x > high, low when x < low, else x. -/
def gClamp (x lo hi : ℚ) : ℚ :=
  if x > hi then hi else if x < lo then lo else x

/-- The `ChafaCanvasConfig` record (opaque struct of the header).  Field
layout modelled from the spec's data model: geometry and cell geometry in
cells/pixels, enum fields as Int codes, floats as ℚ, symbol-map fields as
shared catalog identifiers, packed colors as 32-bit Nat, plus the
reference count of the record itself. -/
structure ChafaCanvasConfig where
  width : Int
  height : Int
  cell_width : Int
  cell_height : Int
  canvas_mode : Int
  color_extractor : Int
  color_space : Int
  symbol_map : Nat
  fill_symbol_map : Nat
  transparency_threshold : ℚ
  fg_color : Nat
  bg_color : Nat
  work_factor : ℚ
  preprocessing_enabled : Bool
  dither_mode : Int
  dither_grain_width : Int
  dither_grain_height : Int
  dither_intensity : ℚ
  pixel_mode : Int
  optimizations : Nat
  fg_only_enabled : Bool
  passthrough : Int
  refcount : Nat
deriving DecidableEq

/-- Modelled from the spec: the documented defaults (canvas mode =
truecolor, color space = RGB, work factor = mid-range, alpha threshold =
fully opaque, fg-only = false, passthrough = none); defaults the spec
leaves open (geometry, cell geometry, grain size, colors) are fixed
configuration constants consistent with the spec's invariants.  The
implementation holding these constants is not under src/. -/
def chafa_canvas_config_default : ChafaCanvasConfig where
  width := 80
  height := 24
  cell_width := 10
  cell_height := 20
  canvas_mode := CHAFA_CANVAS_MODE_TRUECOLOR
  color_extractor := 0
  color_space := CHAFA_COLOR_SPACE_RGB
  symbol_map := 0
  fill_symbol_map := 0
  transparency_threshold := 1
  fg_color := 0xffffff
  bg_color := 0x000000
  work_factor := 1/2
  preprocessing_enabled := true
  dither_mode := 0
  dither_grain_width := 4
  dither_grain_height := 4
  dither_intensity := 1
  pixel_mode := CHAFA_PIXEL_MODE_SYMBOLS
  optimizations := 0
  fg_only_enabled := false
  passthrough := CHAFA_PASSTHROUGH_NONE
  refcount := 1

/-- Validity predicate of the spec: every scalar field within its
documented range, every enum field in its closed set. -/
def validConfig (c : ChafaCanvasConfig) : Prop :=
  0 < c.width ∧ 0 < c.height ∧ 0 < c.cell_width ∧ 0 < c.cell_height ∧
  validCanvasMode c.canvas_mode ∧ validColorExtractor c.color_extractor ∧
  validColorSpace c.color_space ∧ validDitherMode c.dither_mode ∧
  validPixelMode c.pixel_mode ∧ validPassthrough c.passthrough ∧
  0 ≤ c.transparency_threshold ∧ c.transparency_threshold ≤ 1 ∧
  0 ≤ c.work_factor ∧ c.work_factor ≤ 1 ∧
  0 ≤ c.dither_intensity ∧
  validGrainDim c.dither_grain_width ∧ validGrainDim c.dither_grain_height ∧
  c.fg_color < 2 ^ 32 ∧ c.bg_color < 2 ^ 32

instance decValidConfig (c : ChafaCanvasConfig) : Decidable (validConfig c) := by
  unfold validConfig
  exact inferInstance

/-- The store of live records: C heap pointers become Nat handles; `recs`
maps a handle to the record it designates (none = not allocated / freed),
`next` is the next fresh handle. -/
structure ConfigStore where
  recs : Nat → Option ChafaCanvasConfig
  next : Nat

/-- The store with no live records. -/
def emptyStore : ConfigStore where
  recs := fun _ => none
  next := 0

/-- Allocate a record at a fresh handle. -/
def alloc (s : ConfigStore) (c : ChafaCanvasConfig) : Nat × ConfigStore :=
  (s.next,
   { recs := fun k => if k = s.next then some c else s.recs k
     next := s.next + 1 })

/-- Apply a pure field update to the record a handle designates; on a dead
handle (undefined behaviour in C) the store is unchanged. -/
def modifyRec (s : ConfigStore) (hd : Nat) (f : ChafaCanvasConfig → ChafaCanvasConfig) :
    ConfigStore :=
  match s.recs hd with
  | none => s
  | some c =>
    { s with recs := fun k => if k = hd then some (f c) else s.recs k }

/-- Modelled from the spec: `chafa_canvas_config_new` returns a new record
with ref-count 1 and every field at its documented default; the
implementation is not under src/. -/
def chafa_canvas_config_new (s : ConfigStore) : Nat × ConfigStore :=
  alloc s chafa_canvas_config_default

/-- Modelled from the spec: `chafa_canvas_config_copy` copies every
scalar/enum field by value and the symbol-map references by reference,
and returns a new independent record with ref-count 1; the implementation
is not under src/. -/
def chafa_canvas_config_copy (s : ConfigStore) (hd : Nat) : Nat × ConfigStore :=
  match s.recs hd with
  | none => (s.next, s)
  | some c => alloc s { c with refcount := 1 }

/-- Modelled from the spec: `chafa_canvas_config_ref` increments the
record's reference count; the implementation is not under src/. -/
def chafa_canvas_config_ref (s : ConfigStore) (hd : Nat) : ConfigStore :=
  modifyRec s hd (fun c => { c with refcount := c.refcount + 1 })

/-- Modelled from the spec: `chafa_canvas_config_unref` decrements the
reference count and frees the record when it reaches zero; the
implementation is not under src/. -/
def chafa_canvas_config_unref (s : ConfigStore) (hd : Nat) : ConfigStore :=
  match s.recs hd with
  | none => s
  | some c =>
    if c.refcount ≤ 1 then
      { s with recs := fun k => if k = hd then none else s.recs k }
    else
      { s with recs := fun k => if k = hd then some { c with refcount := c.refcount - 1 }
                                else s.recs k }

/-- Modelled from the spec: pure normalization of `set_geometry` input —
geometry fields are strictly positive once set, zero/negative inputs are
rejected leaving the prior value; the implementation is not under src/. -/
def applyGeometry (width height : Int) (c : ChafaCanvasConfig) : ChafaCanvasConfig :=
  if 0 < width ∧ 0 < height then { c with width := width, height := height } else c

/-- Modelled from the spec: pure normalization of `set_cell_geometry`
input, as for `applyGeometry`; the implementation is not under src/. -/
def applyCellGeometry (cw ch : Int) (c : ChafaCanvasConfig) : ChafaCanvasConfig :=
  if 0 < cw ∧ 0 < ch then { c with cell_width := cw, cell_height := ch } else c

/-- Modelled from the spec: an enum setter given a value outside the
closed set leaves the field unchanged; the implementation is not under
src/. -/
def applyCanvasMode (mode : Int) (c : ChafaCanvasConfig) : ChafaCanvasConfig :=
  if validCanvasMode mode then { c with canvas_mode := mode } else c

/-- Modelled from the spec: as `applyCanvasMode`, for the color extractor
enum; the implementation is not under src/. -/
def applyColorExtractor (x : Int) (c : ChafaCanvasConfig) : ChafaCanvasConfig :=
  if validColorExtractor x then { c with color_extractor := x } else c

/-- Modelled from the spec: as `applyCanvasMode`, for the color space
enum; the implementation is not under src/. -/
def applyColorSpace (x : Int) (c : ChafaCanvasConfig) : ChafaCanvasConfig :=
  if validColorSpace x then { c with color_space := x } else c

/-- Modelled from the spec: setting a symbol map replaces the stored
shared reference, with no copy and no validation of catalog contents; the
implementation is not under src/. -/
def applySymbolMap (m : Nat) (c : ChafaCanvasConfig) : ChafaCanvasConfig :=
  { c with symbol_map := m }

/-- Modelled from the spec: as `applySymbolMap`, for the fill symbol map;
the implementation is not under src/. -/
def applyFillSymbolMap (m : Nat) (c : ChafaCanvasConfig) : ChafaCanvasConfig :=
  { c with fill_symbol_map := m }

/-- Modelled from the spec: the transparency threshold is clamped into
[0, 1]; the implementation is not under src/. -/
def applyTransparencyThreshold (a : ℚ) (c : ChafaCanvasConfig) : ChafaCanvasConfig :=
  { c with transparency_threshold := gClamp a 0 1 }

/-- Modelled from the spec: the fg color setter stores the packed RGB
value as a guint32 (reduced modulo 2^32), with no clamping or validation;
the implementation is not under src/. -/
def applyFgColor (v : Nat) (c : ChafaCanvasConfig) : ChafaCanvasConfig :=
  { c with fg_color := v % 2 ^ 32 }

/-- Modelled from the spec: as `applyFgColor`, for the bg color; the
implementation is not under src/. -/
def applyBgColor (v : Nat) (c : ChafaCanvasConfig) : ChafaCanvasConfig :=
  { c with bg_color := v % 2 ^ 32 }

/-- Modelled from the spec: the work factor is clamped into [0, 1]; the
implementation is not under src/. -/
def applyWorkFactor (f : ℚ) (c : ChafaCanvasConfig) : ChafaCanvasConfig :=
  { c with work_factor := gClamp f 0 1 }

/-- Modelled from the spec: the preprocessing flag is stored as given; the
implementation is not under src/. -/
def applyPreprocessingEnabled (b : Bool) (c : ChafaCanvasConfig) : ChafaCanvasConfig :=
  { c with preprocessing_enabled := b }

/-- Modelled from the spec: as `applyCanvasMode`, for the dither mode
enum; the implementation is not under src/. -/
def applyDitherMode (x : Int) (c : ChafaCanvasConfig) : ChafaCanvasConfig :=
  if validDitherMode x then { c with dither_mode := x } else c

/-- Modelled from the spec: the dither grain size is constrained to the
supported discrete dimensions, other inputs are rejected leaving the
prior value; the implementation is not under src/. -/
def applyDitherGrainSize (w h : Int) (c : ChafaCanvasConfig) : ChafaCanvasConfig :=
  if validGrainDim w ∧ validGrainDim h then
    { c with dither_grain_width := w, dither_grain_height := h }
  else c

/-- Modelled from the spec: the dither intensity is an
unbounded-but-clamped float — a below-range value stores the minimum
documented bound 0; the implementation is not under src/. -/
def applyDitherIntensity (f : ℚ) (c : ChafaCanvasConfig) : ChafaCanvasConfig :=
  { c with dither_intensity := if f < 0 then 0 else f }

/-- Modelled from the spec: as `applyCanvasMode`, for the pixel mode enum;
the implementation is not under src/. -/
def applyPixelMode (x : Int) (c : ChafaCanvasConfig) : ChafaCanvasConfig :=
  if validPixelMode x then { c with pixel_mode := x } else c

/-- Modelled from the spec: the optimizations bitmask is stored as a
guint32 flag set; the implementation is not under src/. -/
def applyOptimizations (v : Nat) (c : ChafaCanvasConfig) : ChafaCanvasConfig :=
  { c with optimizations := v % 2 ^ 32 }

/-- Modelled from the spec: the fg-only flag is stored as given; the
implementation is not under src/. -/
def applyFgOnlyEnabled (b : Bool) (c : ChafaCanvasConfig) : ChafaCanvasConfig :=
  { c with fg_only_enabled := b }

/-- Modelled from the spec: as `applyCanvasMode`, for the passthrough
enum; the implementation is not under src/. -/
def applyPassthrough (x : Int) (c : ChafaCanvasConfig) : ChafaCanvasConfig :=
  if validPassthrough x then { c with passthrough := x } else c

def chafa_canvas_config_set_geometry (s : ConfigStore) (hd : Nat) (width height : Int) :
    ConfigStore :=
  modifyRec s hd (applyGeometry width height)

def chafa_canvas_config_set_cell_geometry (s : ConfigStore) (hd : Nat) (cw ch : Int) :
    ConfigStore :=
  modifyRec s hd (applyCellGeometry cw ch)

def chafa_canvas_config_set_canvas_mode (s : ConfigStore) (hd : Nat) (mode : Int) :
    ConfigStore :=
  modifyRec s hd (applyCanvasMode mode)

def chafa_canvas_config_set_color_extractor (s : ConfigStore) (hd : Nat) (x : Int) :
    ConfigStore :=
  modifyRec s hd (applyColorExtractor x)

def chafa_canvas_config_set_color_space (s : ConfigStore) (hd : Nat) (x : Int) :
    ConfigStore :=
  modifyRec s hd (applyColorSpace x)

def chafa_canvas_config_set_symbol_map (s : ConfigStore) (hd : Nat) (m : Nat) :
    ConfigStore :=
  modifyRec s hd (applySymbolMap m)

def chafa_canvas_config_set_fill_symbol_map (s : ConfigStore) (hd : Nat) (m : Nat) :
    ConfigStore :=
  modifyRec s hd (applyFillSymbolMap m)

def chafa_canvas_config_set_transparency_threshold (s : ConfigStore) (hd : Nat) (a : ℚ) :
    ConfigStore :=
  modifyRec s hd (applyTransparencyThreshold a)

def chafa_canvas_config_set_fg_color (s : ConfigStore) (hd : Nat) (v : Nat) :
    ConfigStore :=
  modifyRec s hd (applyFgColor v)

def chafa_canvas_config_set_bg_color (s : ConfigStore) (hd : Nat) (v : Nat) :
    ConfigStore :=
  modifyRec s hd (applyBgColor v)

def chafa_canvas_config_set_work_factor (s : ConfigStore) (hd : Nat) (f : ℚ) :
    ConfigStore :=
  modifyRec s hd (applyWorkFactor f)

def chafa_canvas_config_set_preprocessing_enabled (s : ConfigStore) (hd : Nat) (b : Bool) :
    ConfigStore :=
  modifyRec s hd (applyPreprocessingEnabled b)

def chafa_canvas_config_set_dither_mode (s : ConfigStore) (hd : Nat) (x : Int) :
    ConfigStore :=
  modifyRec s hd (applyDitherMode x)

def chafa_canvas_config_set_dither_grain_size (s : ConfigStore) (hd : Nat) (w h : Int) :
    ConfigStore :=
  modifyRec s hd (applyDitherGrainSize w h)

def chafa_canvas_config_set_dither_intensity (s : ConfigStore) (hd : Nat) (f : ℚ) :
    ConfigStore :=
  modifyRec s hd (applyDitherIntensity f)

def chafa_canvas_config_set_pixel_mode (s : ConfigStore) (hd : Nat) (x : Int) :
    ConfigStore :=
  modifyRec s hd (applyPixelMode x)

def chafa_canvas_config_set_optimizations (s : ConfigStore) (hd : Nat) (v : Nat) :
    ConfigStore :=
  modifyRec s hd (applyOptimizations v)

def chafa_canvas_config_set_fg_only_enabled (s : ConfigStore) (hd : Nat) (b : Bool) :
    ConfigStore :=
  modifyRec s hd (applyFgOnlyEnabled b)

def chafa_canvas_config_set_passthrough (s : ConfigStore) (hd : Nat) (x : Int) :
    ConfigStore :=
  modifyRec s hd (applyPassthrough x)

def chafa_canvas_config_get_geometry (s : ConfigStore) (hd : Nat) : Option (Int × Int) :=
  (s.recs hd).map (fun c => (c.width, c.height))

def chafa_canvas_config_get_cell_geometry (s : ConfigStore) (hd : Nat) : Option (Int × Int) :=
  (s.recs hd).map (fun c => (c.cell_width, c.cell_height))

def chafa_canvas_config_get_canvas_mode (s : ConfigStore) (hd : Nat) : Option Int :=
  (s.recs hd).map ChafaCanvasConfig.canvas_mode

def chafa_canvas_config_get_color_extractor (s : ConfigStore) (hd : Nat) : Option Int :=
  (s.recs hd).map ChafaCanvasConfig.color_extractor

def chafa_canvas_config_get_color_space (s : ConfigStore) (hd : Nat) : Option Int :=
  (s.recs hd).map ChafaCanvasConfig.color_space

def chafa_canvas_config_peek_symbol_map (s : ConfigStore) (hd : Nat) : Option Nat :=
  (s.recs hd).map ChafaCanvasConfig.symbol_map

def chafa_canvas_config_peek_fill_symbol_map (s : ConfigStore) (hd : Nat) : Option Nat :=
  (s.recs hd).map ChafaCanvasConfig.fill_symbol_map

def chafa_canvas_config_get_transparency_threshold (s : ConfigStore) (hd : Nat) : Option ℚ :=
  (s.recs hd).map ChafaCanvasConfig.transparency_threshold

def chafa_canvas_config_get_fg_color (s : ConfigStore) (hd : Nat) : Option Nat :=
  (s.recs hd).map ChafaCanvasConfig.fg_color

def chafa_canvas_config_get_bg_color (s : ConfigStore) (hd : Nat) : Option Nat :=
  (s.recs hd).map ChafaCanvasConfig.bg_color

def chafa_canvas_config_get_work_factor (s : ConfigStore) (hd : Nat) : Option ℚ :=
  (s.recs hd).map ChafaCanvasConfig.work_factor

def chafa_canvas_config_get_preprocessing_enabled (s : ConfigStore) (hd : Nat) : Option Bool :=
  (s.recs hd).map ChafaCanvasConfig.preprocessing_enabled

def chafa_canvas_config_get_dither_mode (s : ConfigStore) (hd : Nat) : Option Int :=
  (s.recs hd).map ChafaCanvasConfig.dither_mode

def chafa_canvas_config_get_dither_grain_size (s : ConfigStore) (hd : Nat) :
    Option (Int × Int) :=
  (s.recs hd).map (fun c => (c.dither_grain_width, c.dither_grain_height))

def chafa_canvas_config_get_dither_intensity (s : ConfigStore) (hd : Nat) : Option ℚ :=
  (s.recs hd).map ChafaCanvasConfig.dither_intensity

def chafa_canvas_config_get_pixel_mode (s : ConfigStore) (hd : Nat) : Option Int :=
  (s.recs hd).map ChafaCanvasConfig.pixel_mode

def chafa_canvas_config_get_optimizations (s : ConfigStore) (hd : Nat) : Option Nat :=
  (s.recs hd).map ChafaCanvasConfig.optimizations

def chafa_canvas_config_get_fg_only_enabled (s : ConfigStore) (hd : Nat) : Option Bool :=
  (s.recs hd).map ChafaCanvasConfig.fg_only_enabled

def chafa_canvas_config_get_passthrough (s : ConfigStore) (hd : Nat) : Option Int :=
  (s.recs hd).map ChafaCanvasConfig.passthrough

/-- A well-formed store allocates only below `next`. -/
def WFStore (s : ConfigStore) : Prop :=
  ∀ k, s.next ≤ k → s.recs k = none

theorem modifyRec_recs_self (s : ConfigStore) (hd : Nat)
    (f : ChafaCanvasConfig → ChafaCanvasConfig) (c : ChafaCanvasConfig)
    (hl : s.recs hd = some c) :
    (modifyRec s hd f).recs hd = some (f c) := by
  simp [modifyRec, hl]

theorem modifyRec_recs_ne (s : ConfigStore) (hd k : Nat)
    (f : ChafaCanvasConfig → ChafaCanvasConfig) (hk : k ≠ hd) :
    (modifyRec s hd f).recs k = s.recs k := by
  unfold modifyRec
  cases hcase : s.recs hd <;> simp [hk]

theorem gClamp_lo_le (x lo hi : ℚ) (h : lo ≤ hi) : lo ≤ gClamp x lo hi := by
  unfold gClamp
  split_ifs <;> linarith

theorem gClamp_le_hi (x lo hi : ℚ) (h : lo ≤ hi) : gClamp x lo hi ≤ hi := by
  unfold gClamp
  split_ifs <;> linarith

theorem validGrainDim_pos (g : Int) (h : validGrainDim g) : 0 < g := by
  rcases h with h | h | h | h <;> omega

theorem ditherIntensityClamp_nonneg (f : ℚ) : 0 ≤ (if f < 0 then (0 : ℚ) else f) := by
  split_ifs with h
  · exact le_refl 0
  · linarith

theorem applyGeometry_pos (w h : Int) (c : ChafaCanvasConfig)
    (hw : 0 < c.width) (hh : 0 < c.height) :
    0 < (applyGeometry w h c).width ∧ 0 < (applyGeometry w h c).height := by
  unfold applyGeometry
  split_ifs with hif
  · exact ⟨hif.1, hif.2⟩
  · exact ⟨hw, hh⟩

theorem applyCellGeometry_pos (w h : Int) (c : ChafaCanvasConfig)
    (hw : 0 < c.cell_width) (hh : 0 < c.cell_height) :
    0 < (applyCellGeometry w h c).cell_width ∧ 0 < (applyCellGeometry w h c).cell_height := by
  unfold applyCellGeometry
  split_ifs with hif
  · exact ⟨hif.1, hif.2⟩
  · exact ⟨hw, hh⟩

theorem applyDitherGrainSize_pos (w h : Int) (c : ChafaCanvasConfig)
    (hw : validGrainDim c.dither_grain_width) (hh : validGrainDim c.dither_grain_height) :
    0 < (applyDitherGrainSize w h c).dither_grain_width ∧
    0 < (applyDitherGrainSize w h c).dither_grain_height := by
  unfold applyDitherGrainSize
  split_ifs with hif
  · exact ⟨validGrainDim_pos _ hif.1, validGrainDim_pos _ hif.2⟩
  · exact ⟨validGrainDim_pos _ hw, validGrainDim_pos _ hh⟩

theorem validConfig_applyGeometry (w h : Int) (c : ChafaCanvasConfig)
    (hv : validConfig c) : validConfig (applyGeometry w h c) := by
  by_cases hc : 0 < w ∧ 0 < h
  · obtain ⟨h1, h2, h3, h4, h5, h6, h7, h8, h9, h10,
      h11, h12, h13, h14, h15, h16, h17, h18, h19⟩ := hv
    rw [applyGeometry, if_pos hc]
    exact ⟨hc.1, hc.2, h3, h4, h5, h6, h7, h8, h9, h10,
      h11, h12, h13, h14, h15, h16, h17, h18, h19⟩
  · rw [applyGeometry, if_neg hc]
    exact hv

theorem validConfig_applyCellGeometry (w h : Int) (c : ChafaCanvasConfig)
    (hv : validConfig c) : validConfig (applyCellGeometry w h c) := by
  by_cases hc : 0 < w ∧ 0 < h
  · obtain ⟨h1, h2, h3, h4, h5, h6, h7, h8, h9, h10,
      h11, h12, h13, h14, h15, h16, h17, h18, h19⟩ := hv
    rw [applyCellGeometry, if_pos hc]
    exact ⟨h1, h2, hc.1, hc.2, h5, h6, h7, h8, h9, h10,
      h11, h12, h13, h14, h15, h16, h17, h18, h19⟩
  · rw [applyCellGeometry, if_neg hc]
    exact hv

theorem validConfig_applyCanvasMode (m : Int) (c : ChafaCanvasConfig)
    (hv : validConfig c) : validConfig (applyCanvasMode m c) := by
  by_cases hc : validCanvasMode m
  · obtain ⟨h1, h2, h3, h4, h5, h6, h7, h8, h9, h10,
      h11, h12, h13, h14, h15, h16, h17, h18, h19⟩ := hv
    rw [applyCanvasMode, if_pos hc]
    exact ⟨h1, h2, h3, h4, hc, h6, h7, h8, h9, h10,
      h11, h12, h13, h14, h15, h16, h17, h18, h19⟩
  · rw [applyCanvasMode, if_neg hc]
    exact hv

theorem validConfig_applyColorExtractor (m : Int) (c : ChafaCanvasConfig)
    (hv : validConfig c) : validConfig (applyColorExtractor m c) := by
  by_cases hc : validColorExtractor m
  · obtain ⟨h1, h2, h3, h4, h5, h6, h7, h8, h9, h10,
      h11, h12, h13, h14, h15, h16, h17, h18, h19⟩ := hv
    rw [applyColorExtractor, if_pos hc]
    exact ⟨h1, h2, h3, h4, h5, hc, h7, h8, h9, h10,
      h11, h12, h13, h14, h15, h16, h17, h18, h19⟩
  · rw [applyColorExtractor, if_neg hc]
    exact hv

theorem validConfig_applyColorSpace (m : Int) (c : ChafaCanvasConfig)
    (hv : validConfig c) : validConfig (applyColorSpace m c) := by
  by_cases hc : validColorSpace m
  · obtain ⟨h1, h2, h3, h4, h5, h6, h7, h8, h9, h10,
      h11, h12, h13, h14, h15, h16, h17, h18, h19⟩ := hv
    rw [applyColorSpace, if_pos hc]
    exact ⟨h1, h2, h3, h4, h5, h6, hc, h8, h9, h10,
      h11, h12, h13, h14, h15, h16, h17, h18, h19⟩
  · rw [applyColorSpace, if_neg hc]
    exact hv

theorem validConfig_applyDitherMode (m : Int) (c : ChafaCanvasConfig)
    (hv : validConfig c) : validConfig (applyDitherMode m c) := by
  by_cases hc : validDitherMode m
  · obtain ⟨h1, h2, h3, h4, h5, h6, h7, h8, h9, h10,
      h11, h12, h13, h14, h15, h16, h17, h18, h19⟩ := hv
    rw [applyDitherMode, if_pos hc]
    exact ⟨h1, h2, h3, h4, h5, h6, h7, hc, h9, h10,
      h11, h12, h13, h14, h15, h16, h17, h18, h19⟩
  · rw [applyDitherMode, if_neg hc]
    exact hv

theorem validConfig_applyPixelMode (m : Int) (c : ChafaCanvasConfig)
    (hv : validConfig c) : validConfig (applyPixelMode m c) := by
  by_cases hc : validPixelMode m
  · obtain ⟨h1, h2, h3, h4, h5, h6, h7, h8, h9, h10,
      h11, h12, h13, h14, h15, h16, h17, h18, h19⟩ := hv
    rw [applyPixelMode, if_pos hc]
    exact ⟨h1, h2, h3, h4, h5, h6, h7, h8, hc, h10,
      h11, h12, h13, h14, h15, h16, h17, h18, h19⟩
  · rw [applyPixelMode, if_neg hc]
    exact hv

theorem validConfig_applyPassthrough (m : Int) (c : ChafaCanvasConfig)
    (hv : validConfig c) : validConfig (applyPassthrough m c) := by
  by_cases hc : validPassthrough m
  · obtain ⟨h1, h2, h3, h4, h5, h6, h7, h8, h9, h10,
      h11, h12, h13, h14, h15, h16, h17, h18, h19⟩ := hv
    rw [applyPassthrough, if_pos hc]
    exact ⟨h1, h2, h3, h4, h5, h6, h7, h8, h9, hc,
      h11, h12, h13, h14, h15, h16, h17, h18, h19⟩
  · rw [applyPassthrough, if_neg hc]
    exact hv

theorem validConfig_applyDitherGrainSize (w h : Int) (c : ChafaCanvasConfig)
    (hv : validConfig c) : validConfig (applyDitherGrainSize w h c) := by
  by_cases hc : validGrainDim w ∧ validGrainDim h
  · obtain ⟨h1, h2, h3, h4, h5, h6, h7, h8, h9, h10,
      h11, h12, h13, h14, h15, h16, h17, h18, h19⟩ := hv
    rw [applyDitherGrainSize, if_pos hc]
    exact ⟨h1, h2, h3, h4, h5, h6, h7, h8, h9, h10,
      h11, h12, h13, h14, h15, hc.1, hc.2, h18, h19⟩
  · rw [applyDitherGrainSize, if_neg hc]
    exact hv

theorem validConfig_applyTransparencyThreshold (a : ℚ) (c : ChafaCanvasConfig)
    (hv : validConfig c) : validConfig (applyTransparencyThreshold a c) := by
  obtain ⟨h1, h2, h3, h4, h5, h6, h7, h8, h9, h10,
    h11, h12, h13, h14, h15, h16, h17, h18, h19⟩ := hv
  exact ⟨h1, h2, h3, h4, h5, h6, h7, h8, h9, h10,
    gClamp_lo_le a 0 1 (by norm_num), gClamp_le_hi a 0 1 (by norm_num),
    h13, h14, h15, h16, h17, h18, h19⟩

theorem validConfig_applyWorkFactor (f : ℚ) (c : ChafaCanvasConfig)
    (hv : validConfig c) : validConfig (applyWorkFactor f c) := by
  obtain ⟨h1, h2, h3, h4, h5, h6, h7, h8, h9, h10,
    h11, h12, h13, h14, h15, h16, h17, h18, h19⟩ := hv
  exact ⟨h1, h2, h3, h4, h5, h6, h7, h8, h9, h10, h11, h12,
    gClamp_lo_le f 0 1 (by norm_num), gClamp_le_hi f 0 1 (by norm_num),
    h15, h16, h17, h18, h19⟩

theorem validConfig_applyDitherIntensity (f : ℚ) (c : ChafaCanvasConfig)
    (hv : validConfig c) : validConfig (applyDitherIntensity f c) := by
  obtain ⟨h1, h2, h3, h4, h5, h6, h7, h8, h9, h10,
    h11, h12, h13, h14, h15, h16, h17, h18, h19⟩ := hv
  exact ⟨h1, h2, h3, h4, h5, h6, h7, h8, h9, h10, h11, h12, h13, h14,
    ditherIntensityClamp_nonneg f, h16, h17, h18, h19⟩

theorem validConfig_applyFgColor (v : Nat) (c : ChafaCanvasConfig)
    (hv : validConfig c) : validConfig (applyFgColor v c) := by
  obtain ⟨h1, h2, h3, h4, h5, h6, h7, h8, h9, h10,
    h11, h12, h13, h14, h15, h16, h17, h18, h19⟩ := hv
  exact ⟨h1, h2, h3, h4, h5, h6, h7, h8, h9, h10, h11, h12, h13, h14, h15, h16, h17,
    Nat.mod_lt v (by norm_num), h19⟩

theorem validConfig_applyBgColor (v : Nat) (c : ChafaCanvasConfig)
    (hv : validConfig c) : validConfig (applyBgColor v c) := by
  obtain ⟨h1, h2, h3, h4, h5, h6, h7, h8, h9, h10,
    h11, h12, h13, h14, h15, h16, h17, h18, h19⟩ := hv
  exact ⟨h1, h2, h3, h4, h5, h6, h7, h8, h9, h10, h11, h12, h13, h14, h15, h16, h17, h18,
    Nat.mod_lt v (by norm_num)⟩

theorem validConfig_applySymbolMap (m : Nat) (c : ChafaCanvasConfig)
    (hv : validConfig c) : validConfig (applySymbolMap m c) := hv

theorem validConfig_applyFillSymbolMap (m : Nat) (c : ChafaCanvasConfig)
    (hv : validConfig c) : validConfig (applyFillSymbolMap m c) := hv

theorem validConfig_applyPreprocessingEnabled (b : Bool) (c : ChafaCanvasConfig)
    (hv : validConfig c) : validConfig (applyPreprocessingEnabled b c) := hv

theorem validConfig_applyOptimizations (v : Nat) (c : ChafaCanvasConfig)
    (hv : validConfig c) : validConfig (applyOptimizations v c) := hv

theorem validConfig_applyFgOnlyEnabled (b : Bool) (c : ChafaCanvasConfig)
    (hv : validConfig c) : validConfig (applyFgOnlyEnabled b c) := hv

/-- C1: for every live record, every bounded float field is stored clamped
into its documented interval: the work factor read after
`set_work_factor` is `gClamp f 0 1`, the transparency threshold read
after `set_transparency_threshold` is `gClamp f 0 1`, and a below-range
dither intensity stores the minimum documented bound 0; in particular
work factor 5 reads back as 1 and dither intensity -3 reads back as 0. -/
theorem bounded_float_fields_clamped (s : ConfigStore) (hd : Nat)
    (c : ChafaCanvasConfig) (hl : s.recs hd = some c) :
    (∀ f : ℚ, chafa_canvas_config_get_work_factor
        (chafa_canvas_config_set_work_factor s hd f) hd = some (gClamp f 0 1)) ∧
    (∀ f : ℚ, chafa_canvas_config_get_transparency_threshold
        (chafa_canvas_config_set_transparency_threshold s hd f) hd = some (gClamp f 0 1)) ∧
    (∀ f : ℚ, f < 0 → chafa_canvas_config_get_dither_intensity
        (chafa_canvas_config_set_dither_intensity s hd f) hd = some 0) ∧
    chafa_canvas_config_get_work_factor
      (chafa_canvas_config_set_work_factor s hd 5) hd = some 1 ∧
    chafa_canvas_config_get_dither_intensity
      (chafa_canvas_config_set_dither_intensity s hd (-3)) hd = some 0 := by
  have hwf : ∀ f : ℚ, chafa_canvas_config_get_work_factor
      (chafa_canvas_config_set_work_factor s hd f) hd = some (gClamp f 0 1) := by
    intro f
    simp [chafa_canvas_config_get_work_factor, chafa_canvas_config_set_work_factor,
      modifyRec_recs_self _ _ _ _ hl, applyWorkFactor]
  have htt : ∀ f : ℚ, chafa_canvas_config_get_transparency_threshold
      (chafa_canvas_config_set_transparency_threshold s hd f) hd = some (gClamp f 0 1) := by
    intro f
    simp [chafa_canvas_config_get_transparency_threshold,
      chafa_canvas_config_set_transparency_threshold,
      modifyRec_recs_self _ _ _ _ hl, applyTransparencyThreshold]
  have hdi : ∀ f : ℚ, f < 0 → chafa_canvas_config_get_dither_intensity
      (chafa_canvas_config_set_dither_intensity s hd f) hd = some 0 := by
    intro f hf
    simp [chafa_canvas_config_get_dither_intensity,
      chafa_canvas_config_set_dither_intensity,
      modifyRec_recs_self _ _ _ _ hl, applyDitherIntensity, hf]
  refine ⟨hwf, htt, hdi, ?_, hdi (-3) (by norm_num)⟩
  rw [hwf 5]
  norm_num [gClamp]

/-- C1 witness: on the record freshly created from the empty store,
setting the work factor to 5 and reading it back gives 1. -/
theorem bounded_float_fields_clamped_witness :
    chafa_canvas_config_get_work_factor
      (chafa_canvas_config_set_work_factor (chafa_canvas_config_new emptyStore).2 0 5) 0
      = some 1 :=
  (bounded_float_fields_clamped (chafa_canvas_config_new emptyStore).2 0
    chafa_canvas_config_default rfl).2.2.2.1

/-- C2: every enumeration setter given a value outside its closed set
leaves the field holding its prior value, and each enum setter keeps the
field inside its closed set whenever it was there before. -/
theorem enum_setters_out_of_range_no_op (s : ConfigStore) (hd : Nat)
    (c : ChafaCanvasConfig) (hl : s.recs hd = some c) :
    (∀ m : Int, ¬ validCanvasMode m →
      chafa_canvas_config_get_canvas_mode
        (chafa_canvas_config_set_canvas_mode s hd m) hd = some c.canvas_mode) ∧
    (∀ m : Int, validCanvasMode c.canvas_mode →
      validCanvasMode ((applyCanvasMode m c).canvas_mode)) ∧
    (∀ m : Int, ¬ validColorExtractor m →
      chafa_canvas_config_get_color_extractor
        (chafa_canvas_config_set_color_extractor s hd m) hd = some c.color_extractor) ∧
    (∀ m : Int, validColorExtractor c.color_extractor →
      validColorExtractor ((applyColorExtractor m c).color_extractor)) ∧
    (∀ m : Int, ¬ validColorSpace m →
      chafa_canvas_config_get_color_space
        (chafa_canvas_config_set_color_space s hd m) hd = some c.color_space) ∧
    (∀ m : Int, validColorSpace c.color_space →
      validColorSpace ((applyColorSpace m c).color_space)) ∧
    (∀ m : Int, ¬ validDitherMode m →
      chafa_canvas_config_get_dither_mode
        (chafa_canvas_config_set_dither_mode s hd m) hd = some c.dither_mode) ∧
    (∀ m : Int, validDitherMode c.dither_mode →
      validDitherMode ((applyDitherMode m c).dither_mode)) ∧
    (∀ m : Int, ¬ validPixelMode m →
      chafa_canvas_config_get_pixel_mode
        (chafa_canvas_config_set_pixel_mode s hd m) hd = some c.pixel_mode) ∧
    (∀ m : Int, validPixelMode c.pixel_mode →
      validPixelMode ((applyPixelMode m c).pixel_mode)) ∧
    (∀ m : Int, ¬ validPassthrough m →
      chafa_canvas_config_get_passthrough
        (chafa_canvas_config_set_passthrough s hd m) hd = some c.passthrough) ∧
    (∀ m : Int, validPassthrough c.passthrough →
      validPassthrough ((applyPassthrough m c).passthrough)) := by
  refine ⟨?_, ?_, ?_, ?_, ?_, ?_, ?_, ?_, ?_, ?_, ?_, ?_⟩
  · intro m hm
    simp [chafa_canvas_config_get_canvas_mode, chafa_canvas_config_set_canvas_mode,
      modifyRec_recs_self _ _ _ _ hl, applyCanvasMode, hm]
  · intro m hm
    by_cases h : validCanvasMode m <;> simp [applyCanvasMode, h, hm]
  · intro m hm
    simp [chafa_canvas_config_get_color_extractor, chafa_canvas_config_set_color_extractor,
      modifyRec_recs_self _ _ _ _ hl, applyColorExtractor, hm]
  · intro m hm
    by_cases h : validColorExtractor m <;> simp [applyColorExtractor, h, hm]
  · intro m hm
    simp [chafa_canvas_config_get_color_space, chafa_canvas_config_set_color_space,
      modifyRec_recs_self _ _ _ _ hl, applyColorSpace, hm]
  · intro m hm
    by_cases h : validColorSpace m <;> simp [applyColorSpace, h, hm]
  · intro m hm
    simp [chafa_canvas_config_get_dither_mode, chafa_canvas_config_set_dither_mode,
      modifyRec_recs_self _ _ _ _ hl, applyDitherMode, hm]
  · intro m hm
    by_cases h : validDitherMode m <;> simp [applyDitherMode, h, hm]
  · intro m hm
    simp [chafa_canvas_config_get_pixel_mode, chafa_canvas_config_set_pixel_mode,
      modifyRec_recs_self _ _ _ _ hl, applyPixelMode, hm]
  · intro m hm
    by_cases h : validPixelMode m <;> simp [applyPixelMode, h, hm]
  · intro m hm
    simp [chafa_canvas_config_get_passthrough, chafa_canvas_config_set_passthrough,
      modifyRec_recs_self _ _ _ _ hl, applyPassthrough, hm]
  · intro m hm
    by_cases h : validPassthrough m <;> simp [applyPassthrough, h, hm]

/-- C2 witness: on the freshly created record, setting canvas mode 99
(outside the closed set) leaves the default canvas mode in place. -/
theorem enum_setters_out_of_range_no_op_witness :
    chafa_canvas_config_get_canvas_mode
      (chafa_canvas_config_set_canvas_mode (chafa_canvas_config_new emptyStore).2 0 99) 0
      = some chafa_canvas_config_default.canvas_mode :=
  (enum_setters_out_of_range_no_op (chafa_canvas_config_new emptyStore).2 0
    chafa_canvas_config_default rfl).1 99 (by decide)

/-- C3: for every live record and strictly positive width and height,
`set_geometry` then `get_geometry` yields exactly that pair, with no
adjustment. -/
theorem geometry_roundtrip (s : ConfigStore) (hd : Nat) (c : ChafaCanvasConfig)
    (w h : Int) (hl : s.recs hd = some c) (hw : 0 < w) (hh : 0 < h) :
    chafa_canvas_config_get_geometry
      (chafa_canvas_config_set_geometry s hd w h) hd = some (w, h) := by
  simp [chafa_canvas_config_get_geometry, chafa_canvas_config_set_geometry,
    modifyRec_recs_self _ _ _ _ hl, applyGeometry, hw, hh]

/-- C3 witness: the freshly created record, after `set_geometry 80 24`,
reads back geometry (80, 24). -/
theorem geometry_roundtrip_witness :
    chafa_canvas_config_get_geometry
      (chafa_canvas_config_set_geometry (chafa_canvas_config_new emptyStore).2 0 80 24) 0
      = some (80, 24) :=
  geometry_roundtrip (chafa_canvas_config_new emptyStore).2 0
    chafa_canvas_config_default 80 24 rfl (by decide) (by decide)

theorem validConfig_default : validConfig chafa_canvas_config_default := by
  unfold validConfig chafa_canvas_config_default validCanvasMode validColorExtractor
    validColorSpace validDitherMode validPixelMode validPassthrough validGrainDim
    CHAFA_CANVAS_MODE_TRUECOLOR CHAFA_COLOR_SPACE_RGB CHAFA_PIXEL_MODE_SYMBOLS
    CHAFA_PASSTHROUGH_NONE
  norm_num

/-- C4: `copy` of a live record returns a fresh independent handle holding
a record whose every field equals the source's (symbol-map references
included, hence shared) except the reference count, which is 1; any
mutation of the clone leaves the source's record untouched and vice
versa; and the concrete scenario create, set (80,24), clone, set clone to
(40,12) reads (80,24) from the source and (40,12) from the clone. -/
theorem copy_independent (s : ConfigStore) (hd hd2 : Nat) (s2 : ConfigStore)
    (c : ChafaCanvasConfig) (hwf : WFStore s) (hl : s.recs hd = some c)
    (hcopy : chafa_canvas_config_copy s hd = (hd2, s2)) :
    hd2 ≠ hd ∧
    s2.recs hd2 = some { c with refcount := 1 } ∧
    s2.recs hd = some c ∧
    (∀ f, (modifyRec s2 hd2 f).recs hd = some c) ∧
    (∀ f, (modifyRec s2 hd f).recs hd2 = some { c with refcount := 1 }) ∧
    chafa_canvas_config_get_geometry
      (chafa_canvas_config_set_geometry
        (chafa_canvas_config_copy
          (chafa_canvas_config_set_geometry (chafa_canvas_config_new emptyStore).2
            (chafa_canvas_config_new emptyStore).1 80 24)
          (chafa_canvas_config_new emptyStore).1).2
        (chafa_canvas_config_copy
          (chafa_canvas_config_set_geometry (chafa_canvas_config_new emptyStore).2
            (chafa_canvas_config_new emptyStore).1 80 24)
          (chafa_canvas_config_new emptyStore).1).1
        40 12)
      (chafa_canvas_config_new emptyStore).1 = some (80, 24) ∧
    chafa_canvas_config_get_geometry
      (chafa_canvas_config_set_geometry
        (chafa_canvas_config_copy
          (chafa_canvas_config_set_geometry (chafa_canvas_config_new emptyStore).2
            (chafa_canvas_config_new emptyStore).1 80 24)
          (chafa_canvas_config_new emptyStore).1).2
        (chafa_canvas_config_copy
          (chafa_canvas_config_set_geometry (chafa_canvas_config_new emptyStore).2
            (chafa_canvas_config_new emptyStore).1 80 24)
          (chafa_canvas_config_new emptyStore).1).1
        40 12)
      (chafa_canvas_config_copy
        (chafa_canvas_config_set_geometry (chafa_canvas_config_new emptyStore).2
          (chafa_canvas_config_new emptyStore).1 80 24)
        (chafa_canvas_config_new emptyStore).1).1 = some (40, 12) := by
  have hlt : hd < s.next := by
    by_contra hnot
    push_neg at hnot
    rw [hwf hd hnot] at hl
    exact Option.noConfusion hl
  have hc2 : chafa_canvas_config_copy s hd
      = (s.next,
         { recs := fun k => if k = s.next then some { c with refcount := 1 } else s.recs k
           next := s.next + 1 }) := by
    simp [chafa_canvas_config_copy, hl, alloc]
  rw [hc2] at hcopy
  injection hcopy with hph hps
  subst hph
  subst hps
  have hne : hd ≠ s.next := by omega
  refine ⟨by omega, by simp, by simp [hne, hl], ?_, ?_, by rfl, by rfl⟩
  · intro f
    rw [modifyRec_recs_ne _ _ _ f hne]
    simp [hne, hl]
  · intro f
    rw [modifyRec_recs_ne _ _ _ f (Ne.symm hne)]
    simp

/-- C4 witness: cloning the record created from the empty store yields a
handle distinct from the source's. -/
theorem copy_independent_witness :
    (chafa_canvas_config_copy (chafa_canvas_config_new emptyStore).2 0).1 ≠ 0 :=
  (copy_independent (chafa_canvas_config_new emptyStore).2 0
    (chafa_canvas_config_copy (chafa_canvas_config_new emptyStore).2 0).1
    (chafa_canvas_config_copy (chafa_canvas_config_new emptyStore).2 0).2
    chafa_canvas_config_default
    (fun k hk => by
      simp only [chafa_canvas_config_new, alloc, emptyStore] at hk ⊢
      have hk0 : k ≠ 0 := by omega
      simp [hk0])
    rfl rfl).1

/-- C5: `new` takes no further input, always succeeds, and returns a
record at ref-count 1 holding the documented defaults (canvas mode
truecolor, color space RGB, fg-only false, passthrough none), and that
default record satisfies the validity predicate before any setter is
called. -/
theorem create_default_record (s : ConfigStore) :
    (chafa_canvas_config_new s).2.recs (chafa_canvas_config_new s).1
      = some chafa_canvas_config_default ∧
    chafa_canvas_config_default.refcount = 1 ∧
    chafa_canvas_config_default.canvas_mode = CHAFA_CANVAS_MODE_TRUECOLOR ∧
    chafa_canvas_config_default.color_space = CHAFA_COLOR_SPACE_RGB ∧
    chafa_canvas_config_default.fg_only_enabled = false ∧
    chafa_canvas_config_default.passthrough = CHAFA_PASSTHROUGH_NONE ∧
    validConfig chafa_canvas_config_default := by
  refine ⟨?_, rfl, rfl, rfl, rfl, rfl, validConfig_default⟩
  simp [chafa_canvas_config_new, alloc]

/-- C6: on a live record, `ref` increments the reference count of the same
record, and `ref` followed by exactly one `unref` restores the store
exactly: the count equals its value before the pair and every record and
field is unchanged. -/
theorem ref_unref_preserves (s : ConfigStore) (hd : Nat) (c : ChafaCanvasConfig)
    (hl : s.recs hd = some c) (hrc : 1 ≤ c.refcount) :
    (chafa_canvas_config_ref s hd).recs hd
      = some { c with refcount := c.refcount + 1 } ∧
    ∀ k, (chafa_canvas_config_unref (chafa_canvas_config_ref s hd) hd).recs k
      = s.recs k := by
  have h1 : (chafa_canvas_config_ref s hd).recs hd
      = some { c with refcount := c.refcount + 1 } :=
    modifyRec_recs_self _ _ _ _ hl
  have hcond : ¬ (c.refcount + 1 ≤ 1) := by omega
  refine ⟨h1, fun k => ?_⟩
  by_cases hk : k = hd
  · subst hk
    simp [chafa_canvas_config_unref, h1, hcond, hl]
  · have h2 : (chafa_canvas_config_ref s hd).recs k = s.recs k :=
      modifyRec_recs_ne s hd k _ hk
    simp [chafa_canvas_config_unref, h1, hcond, hk, h2]

/-- C6 witness: on the freshly created record (ref-count 1), `ref` yields
the same record at ref-count 2. -/
theorem ref_unref_preserves_witness :
    (chafa_canvas_config_ref (chafa_canvas_config_new emptyStore).2 0).recs 0
      = some { chafa_canvas_config_default with
                refcount := chafa_canvas_config_default.refcount + 1 } :=
  (ref_unref_preserves (chafa_canvas_config_new emptyStore).2 0
    chafa_canvas_config_default rfl (by decide)).1

/-- C7: setting the primary or fill symbol map on a live record stores the
shared reference to the very catalog given — any identifier is accepted
unvalidated and not duplicated — so a subsequent peek returns that same
catalog reference, and only the reference field of the record changes. -/
theorem symbol_map_shared_reference (s : ConfigStore) (hd : Nat)
    (c : ChafaCanvasConfig) (hl : s.recs hd = some c) :
    (∀ m : Nat, chafa_canvas_config_peek_symbol_map
        (chafa_canvas_config_set_symbol_map s hd m) hd = some m) ∧
    (∀ m : Nat, (chafa_canvas_config_set_symbol_map s hd m).recs hd
        = some { c with symbol_map := m }) ∧
    (∀ m : Nat, chafa_canvas_config_peek_fill_symbol_map
        (chafa_canvas_config_set_fill_symbol_map s hd m) hd = some m) ∧
    (∀ m : Nat, (chafa_canvas_config_set_fill_symbol_map s hd m).recs hd
        = some { c with fill_symbol_map := m }) := by
  refine ⟨?_, ?_, ?_, ?_⟩
  · intro m
    simp [chafa_canvas_config_peek_symbol_map, chafa_canvas_config_set_symbol_map,
      modifyRec_recs_self _ _ _ _ hl, applySymbolMap]
  · intro m
    exact modifyRec_recs_self _ _ _ _ hl
  · intro m
    simp [chafa_canvas_config_peek_fill_symbol_map, chafa_canvas_config_set_fill_symbol_map,
      modifyRec_recs_self _ _ _ _ hl, applyFillSymbolMap]
  · intro m
    exact modifyRec_recs_self _ _ _ _ hl

/-- C7 witness: on the freshly created record, setting symbol map 7 and
peeking returns the same reference 7. -/
theorem symbol_map_shared_reference_witness :
    chafa_canvas_config_peek_symbol_map
      (chafa_canvas_config_set_symbol_map (chafa_canvas_config_new emptyStore).2 0 7) 0
      = some 7 :=
  (symbol_map_shared_reference (chafa_canvas_config_new emptyStore).2 0
    chafa_canvas_config_default rfl).1 7

/-- C8: on a live record whose geometry, cell-geometry and grain fields
are in range, any call to `set_geometry`, `set_cell_geometry` or
`set_dither_grain_size` — with any input, including zero or negative —
leaves the stored width and height of that field strictly positive:
out-of-range input is rejected, never stored as-is. -/
theorem geometry_fields_strictly_positive (s : ConfigStore) (hd : Nat)
    (c : ChafaCanvasConfig) (hl : s.recs hd = some c)
    (hw : 0 < c.width) (hh : 0 < c.height)
    (hcw : 0 < c.cell_width) (hch : 0 < c.cell_height)
    (hgw : validGrainDim c.dither_grain_width)
    (hgh : validGrainDim c.dither_grain_height) :
    ∀ w h : Int,
      (chafa_canvas_config_get_geometry
          (chafa_canvas_config_set_geometry s hd w h) hd
        = some ((applyGeometry w h c).width, (applyGeometry w h c).height) ∧
       0 < (applyGeometry w h c).width ∧ 0 < (applyGeometry w h c).height) ∧
      (chafa_canvas_config_get_cell_geometry
          (chafa_canvas_config_set_cell_geometry s hd w h) hd
        = some ((applyCellGeometry w h c).cell_width, (applyCellGeometry w h c).cell_height) ∧
       0 < (applyCellGeometry w h c).cell_width ∧
       0 < (applyCellGeometry w h c).cell_height) ∧
      (chafa_canvas_config_get_dither_grain_size
          (chafa_canvas_config_set_dither_grain_size s hd w h) hd
        = some ((applyDitherGrainSize w h c).dither_grain_width,
                (applyDitherGrainSize w h c).dither_grain_height) ∧
       0 < (applyDitherGrainSize w h c).dither_grain_width ∧
       0 < (applyDitherGrainSize w h c).dither_grain_height) := by
  intro w h
  refine ⟨⟨?_, (applyGeometry_pos w h c hw hh).1, (applyGeometry_pos w h c hw hh).2⟩,
    ⟨?_, (applyCellGeometry_pos w h c hcw hch).1, (applyCellGeometry_pos w h c hcw hch).2⟩,
    ⟨?_, (applyDitherGrainSize_pos w h c hgw hgh).1,
      (applyDitherGrainSize_pos w h c hgw hgh).2⟩⟩
  · simp [chafa_canvas_config_get_geometry, chafa_canvas_config_set_geometry,
      modifyRec_recs_self _ _ _ _ hl]
  · simp [chafa_canvas_config_get_cell_geometry, chafa_canvas_config_set_cell_geometry,
      modifyRec_recs_self _ _ _ _ hl]
  · simp [chafa_canvas_config_get_dither_grain_size,
      chafa_canvas_config_set_dither_grain_size, modifyRec_recs_self _ _ _ _ hl]

/-- C8 witness: on the freshly created record, after `set_geometry 0 (-5)`
the stored width is still strictly positive. -/
theorem geometry_fields_strictly_positive_witness :
    0 < (applyGeometry 0 (-5) chafa_canvas_config_default).width :=
  ((geometry_fields_strictly_positive (chafa_canvas_config_new emptyStore).2 0
    chafa_canvas_config_default rfl (by decide) (by decide) (by decide) (by decide)
    (by decide) (by decide)) 0 (-5)).1.2.1

/-- C9: every setter of the public surface is total — for every live
record and every input, it produces a defined store in which the record
still exists, holding exactly the normalized field value — and it
preserves the validity predicate: after any setter call the record is in
a valid state. -/
theorem setters_total_and_preserve_validity (s : ConfigStore) (hd : Nat)
    (c : ChafaCanvasConfig) (hl : s.recs hd = some c) (hv : validConfig c) :
    (∀ w h : Int, (chafa_canvas_config_set_geometry s hd w h).recs hd
        = some (applyGeometry w h c) ∧ validConfig (applyGeometry w h c)) ∧
    (∀ w h : Int, (chafa_canvas_config_set_cell_geometry s hd w h).recs hd
        = some (applyCellGeometry w h c) ∧ validConfig (applyCellGeometry w h c)) ∧
    (∀ m : Int, (chafa_canvas_config_set_canvas_mode s hd m).recs hd
        = some (applyCanvasMode m c) ∧ validConfig (applyCanvasMode m c)) ∧
    (∀ m : Int, (chafa_canvas_config_set_color_extractor s hd m).recs hd
        = some (applyColorExtractor m c) ∧ validConfig (applyColorExtractor m c)) ∧
    (∀ m : Int, (chafa_canvas_config_set_color_space s hd m).recs hd
        = some (applyColorSpace m c) ∧ validConfig (applyColorSpace m c)) ∧
    (∀ m : Nat, (chafa_canvas_config_set_symbol_map s hd m).recs hd
        = some (applySymbolMap m c) ∧ validConfig (applySymbolMap m c)) ∧
    (∀ m : Nat, (chafa_canvas_config_set_fill_symbol_map s hd m).recs hd
        = some (applyFillSymbolMap m c) ∧ validConfig (applyFillSymbolMap m c)) ∧
    (∀ a : ℚ, (chafa_canvas_config_set_transparency_threshold s hd a).recs hd
        = some (applyTransparencyThreshold a c) ∧
        validConfig (applyTransparencyThreshold a c)) ∧
    (∀ v : Nat, (chafa_canvas_config_set_fg_color s hd v).recs hd
        = some (applyFgColor v c) ∧ validConfig (applyFgColor v c)) ∧
    (∀ v : Nat, (chafa_canvas_config_set_bg_color s hd v).recs hd
        = some (applyBgColor v c) ∧ validConfig (applyBgColor v c)) ∧
    (∀ f : ℚ, (chafa_canvas_config_set_work_factor s hd f).recs hd
        = some (applyWorkFactor f c) ∧ validConfig (applyWorkFactor f c)) ∧
    (∀ b : Bool, (chafa_canvas_config_set_preprocessing_enabled s hd b).recs hd
        = some (applyPreprocessingEnabled b c) ∧
        validConfig (applyPreprocessingEnabled b c)) ∧
    (∀ m : Int, (chafa_canvas_config_set_dither_mode s hd m).recs hd
        = some (applyDitherMode m c) ∧ validConfig (applyDitherMode m c)) ∧
    (∀ w h : Int, (chafa_canvas_config_set_dither_grain_size s hd w h).recs hd
        = some (applyDitherGrainSize w h c) ∧ validConfig (applyDitherGrainSize w h c)) ∧
    (∀ f : ℚ, (chafa_canvas_config_set_dither_intensity s hd f).recs hd
        = some (applyDitherIntensity f c) ∧ validConfig (applyDitherIntensity f c)) ∧
    (∀ m : Int, (chafa_canvas_config_set_pixel_mode s hd m).recs hd
        = some (applyPixelMode m c) ∧ validConfig (applyPixelMode m c)) ∧
    (∀ v : Nat, (chafa_canvas_config_set_optimizations s hd v).recs hd
        = some (applyOptimizations v c) ∧ validConfig (applyOptimizations v c)) ∧
    (∀ b : Bool, (chafa_canvas_config_set_fg_only_enabled s hd b).recs hd
        = some (applyFgOnlyEnabled b c) ∧ validConfig (applyFgOnlyEnabled b c)) ∧
    (∀ m : Int, (chafa_canvas_config_set_passthrough s hd m).recs hd
        = some (applyPassthrough m c) ∧ validConfig (applyPassthrough m c)) :=
  ⟨fun w h => ⟨modifyRec_recs_self _ _ _ _ hl, validConfig_applyGeometry w h c hv⟩,
   fun w h => ⟨modifyRec_recs_self _ _ _ _ hl, validConfig_applyCellGeometry w h c hv⟩,
   fun m => ⟨modifyRec_recs_self _ _ _ _ hl, validConfig_applyCanvasMode m c hv⟩,
   fun m => ⟨modifyRec_recs_self _ _ _ _ hl, validConfig_applyColorExtractor m c hv⟩,
   fun m => ⟨modifyRec_recs_self _ _ _ _ hl, validConfig_applyColorSpace m c hv⟩,
   fun m => ⟨modifyRec_recs_self _ _ _ _ hl, validConfig_applySymbolMap m c hv⟩,
   fun m => ⟨modifyRec_recs_self _ _ _ _ hl, validConfig_applyFillSymbolMap m c hv⟩,
   fun a => ⟨modifyRec_recs_self _ _ _ _ hl, validConfig_applyTransparencyThreshold a c hv⟩,
   fun v => ⟨modifyRec_recs_self _ _ _ _ hl, validConfig_applyFgColor v c hv⟩,
   fun v => ⟨modifyRec_recs_self _ _ _ _ hl, validConfig_applyBgColor v c hv⟩,
   fun f => ⟨modifyRec_recs_self _ _ _ _ hl, validConfig_applyWorkFactor f c hv⟩,
   fun b => ⟨modifyRec_recs_self _ _ _ _ hl, validConfig_applyPreprocessingEnabled b c hv⟩,
   fun m => ⟨modifyRec_recs_self _ _ _ _ hl, validConfig_applyDitherMode m c hv⟩,
   fun w h => ⟨modifyRec_recs_self _ _ _ _ hl, validConfig_applyDitherGrainSize w h c hv⟩,
   fun f => ⟨modifyRec_recs_self _ _ _ _ hl, validConfig_applyDitherIntensity f c hv⟩,
   fun m => ⟨modifyRec_recs_self _ _ _ _ hl, validConfig_applyPixelMode m c hv⟩,
   fun v => ⟨modifyRec_recs_self _ _ _ _ hl, validConfig_applyOptimizations v c hv⟩,
   fun b => ⟨modifyRec_recs_self _ _ _ _ hl, validConfig_applyFgOnlyEnabled b c hv⟩,
   fun m => ⟨modifyRec_recs_self _ _ _ _ hl, validConfig_applyPassthrough m c hv⟩⟩

/-- C9 witness: on the freshly created record, the geometry setter at
input (80, 24) leaves the record in a valid state. -/
theorem setters_total_and_preserve_validity_witness :
    validConfig (applyGeometry 80 24 chafa_canvas_config_default) :=
  ((setters_total_and_preserve_validity (chafa_canvas_config_new emptyStore).2 0
    chafa_canvas_config_default rfl validConfig_default).1 80 24).2

/-- C10: for every live record and every 32-bit value, `set_fg_color`
then `get_fg_color` returns exactly that value, likewise for the bg
color — the color setters store any guint32 without clamping or
validation — and on a live record the color getters always return the
stored 32-bit value (no distinguished unset state). -/
theorem color_setters_store_exact (s : ConfigStore) (hd : Nat)
    (c : ChafaCanvasConfig) (v : Nat) (hl : s.recs hd = some c)
    (hv : v < 2 ^ 32) :
    chafa_canvas_config_get_fg_color
      (chafa_canvas_config_set_fg_color s hd v) hd = some v ∧
    chafa_canvas_config_get_bg_color
      (chafa_canvas_config_set_bg_color s hd v) hd = some v ∧
    chafa_canvas_config_get_fg_color s hd = some c.fg_color ∧
    chafa_canvas_config_get_bg_color s hd = some c.bg_color := by
  refine ⟨?_, ?_, ?_, ?_⟩
  · have hv2 : v < 4294967296 := by omega
    simp only [chafa_canvas_config_get_fg_color, chafa_canvas_config_set_fg_color,
      modifyRec_recs_self _ _ _ _ hl, Option.map_some']
    simp [applyFgColor, Nat.mod_eq_of_lt hv2]
  · have hv2 : v < 4294967296 := by omega
    simp only [chafa_canvas_config_get_bg_color, chafa_canvas_config_set_bg_color,
      modifyRec_recs_self _ _ _ _ hl, Option.map_some']
    simp [applyBgColor, Nat.mod_eq_of_lt hv2]
  · simp [chafa_canvas_config_get_fg_color, hl]
  · simp [chafa_canvas_config_get_bg_color, hl]

/-- C10 witness: on the freshly created record, setting fg color
0xdeadbe and reading it back returns exactly 0xdeadbe. -/
theorem color_setters_store_exact_witness :
    chafa_canvas_config_get_fg_color
      (chafa_canvas_config_set_fg_color (chafa_canvas_config_new emptyStore).2 0 0xdeadbe) 0
      = some 0xdeadbe :=
  (color_setters_store_exact (chafa_canvas_config_new emptyStore).2 0
    chafa_canvas_config_default 0xdeadbe rfl (by norm_num)).1
